import Mathlib

/-!
Verification of the Relationship Garden decay engine.

Shallow embedding of `src/backend/app/core/decay.py` and the configuration
defaults of `src/backend/app/core/config.py`.  Python floats are modelled as
real numbers; timestamps are modelled as real-valued seconds (UTC).  The
`datetime` handling of `calculate_health` (naive vs. timezone-aware inputs)
is modelled separately by `PyDatetime`, `ensure_aware`, `datetime_sub` and
`calculate_health_dt`; Python exceptions are modelled with `Except`.
-/

namespace RelationshipGarden

/-- Configuration constants read by the engine (config.py, class `Settings`).
Only the decay/threshold fields are relevant to the engine. -/
structure Settings where
  decay_rate_succulent : ℝ
  decay_rate_fern : ℝ
  decay_rate_orchid : ℝ
  decay_rate_bonsai : ℝ
  threshold_healthy : ℝ
  threshold_cooling : ℝ
  threshold_dormant : ℝ

/-- The settings value produced by `get_settings()` when no environment
overrides are present: the field defaults of `Settings` in config.py. -/
def get_settings : Settings where
  decay_rate_succulent := 0.0077
  decay_rate_fern := 0.0231
  decay_rate_orchid := 0.0495
  decay_rate_bonsai := 0.0116
  threshold_healthy := 0.7
  threshold_cooling := 0.4
  threshold_dormant := 0.1

/-- `calculate_health` (decay.py), numeric core.  `last_interaction_at` and
`now` are absolute UTC times in seconds; the Python code turns the
`timedelta` into seconds via `total_seconds()` and divides by 86400.
The `now=None` default (wall clock) is outside the embedding: every claim
supplies `now` explicitly. -/
noncomputable def calculate_health (last_interaction_at : ℝ) (decay_rate : ℝ)
    (now : ℝ) (initial_health : ℝ) : ℝ :=
  let days_elapsed := max ((now - last_interaction_at) / 86400) 0
  let health := initial_health * Real.exp (-decay_rate * days_elapsed)
  max 0 (min 1 health)

/-- The health formula in the words of the specification: the clamp to
`[0, 1]` of `initial_health * exp (-decay_rate * elapsed_days)` with
`elapsed_days = max 0 ((now - last_interaction_at) in days)`. -/
noncomputable def health_spec (last_interaction_at : ℝ) (decay_rate : ℝ)
    (now : ℝ) (initial_health : ℝ) : ℝ :=
  min 1 (max 0 (initial_health *
    Real.exp (-decay_rate * max 0 ((now - last_interaction_at) / 86400))))

/-- `classify_status` (decay.py).  The Python function reads the process-wide
settings through `get_settings()`; the embedding passes that settings value
explicitly. -/
noncomputable def classify_status (s : Settings) (health_score : ℝ) : String :=
  if health_score ≥ s.threshold_healthy then "thriving"
  else if health_score ≥ s.threshold_cooling then "cooling"
  else if health_score ≥ s.threshold_dormant then "at_risk"
  else "dormant"

/-- Rounding to one decimal place, as in Python's `round(t, 1)`.
(Python rounds ties to even on binary floats; on the reals the embedding
uses the standard `round`, which differs only on exact ties.) -/
noncomputable def roundTo1 (x : ℝ) : ℝ :=
  ((round (10 * x) : ℤ) : ℝ) / 10

/-- `days_until_threshold` (decay.py).  Returns `Except.ok none` where the
Python code returns `None`.  When `threshold / current_health ≤ 0` the
Python call raises (`ValueError: math domain error` from `math.log` on a
non-positive argument, or `ZeroDivisionError` when `current_health == 0`);
both are modelled as `Except.error`. -/
noncomputable def days_until_threshold (current_health : ℝ) (decay_rate : ℝ)
    (threshold : ℝ) : Except String (Option ℝ) :=
  if current_health ≤ threshold then Except.ok none
  else if decay_rate ≤ 0 then Except.ok none
  else if threshold / current_health ≤ 0 then Except.error "math domain error"
  else Except.ok (some (roundTo1 (-Real.log (threshold / current_health) / decay_rate)))

/-- `get_default_decay_rate` (decay.py): dict lookup over the four tier
names with `.get`-fallback to the fern rate. -/
def get_default_decay_rate (s : Settings) (tier : String) : ℝ :=
  if tier = "succulent" then s.decay_rate_succulent
  else if tier = "fern" then s.decay_rate_fern
  else if tier = "orchid" then s.decay_rate_orchid
  else if tier = "bonsai" then s.decay_rate_bonsai
  else s.decay_rate_fern

/-- A Python `datetime`: a wall-clock instant in seconds together with an
optional UTC offset in seconds.  `utcoffset = none` is a naive datetime. -/
structure PyDatetime where
  wall : ℝ
  utcoffset : Option ℝ

/-- The normalisation `last_interaction_at.replace(tzinfo=timezone.utc)`
applied by `calculate_health` when `tzinfo is None`: a naive datetime keeps
its wall-clock value and becomes aware with offset 0; an aware datetime is
left unchanged. -/
def ensure_aware (d : PyDatetime) : PyDatetime :=
  match d.utcoffset with
  | none => ⟨d.wall, some 0⟩
  | some o => ⟨d.wall, some o⟩

/-- Python datetime subtraction `a - b` in seconds.  Subtracting a naive
from an aware datetime (or vice versa) raises `TypeError`. -/
def datetime_sub (a b : PyDatetime) : Except String ℝ :=
  match a.utcoffset, b.utcoffset with
  | none, none => Except.ok (a.wall - b.wall)
  | some o1, some o2 => Except.ok ((a.wall - o1) - (b.wall - o2))
  | _, _ => Except.error "TypeError"

/-- `calculate_health` on `datetime` inputs: normalise `last_interaction_at`
(only), subtract, and feed the elapsed seconds into the numeric core
(with the last-interaction instant placed at 0). -/
noncomputable def calculate_health_dt (last_interaction_at : PyDatetime)
    (decay_rate : ℝ) (now : PyDatetime) (initial_health : ℝ) :
    Except String ℝ :=
  (datetime_sub now (ensure_aware last_interaction_at)).map
    (fun secs => calculate_health 0 decay_rate secs initial_health)

/-! ## Helper lemmas -/

/-- The two usual ways of clamping to `[0, 1]` agree. -/
lemma clamp_comm (y : ℝ) : max 0 (min 1 y) = min 1 (max 0 y) := by
  rcases le_total y 0 with h | h
  · rw [min_eq_right (h.trans zero_le_one), max_eq_left h,
      min_eq_right zero_le_one]
  · rw [max_eq_right (le_min zero_le_one h), max_eq_right h]

/-- Clamping to `[0, 1]` is monotone. -/
lemma clamp_mono {x y : ℝ} (h : x ≤ y) :
    max 0 (min 1 x) ≤ max 0 (min 1 y) :=
  max_le_max le_rfl (min_le_min le_rfl h)

/-! ## Claims -/

/-- C1: for every `last_interaction_at`, `decay_rate`, `now` and
`initial_health`, `calculate_health` returns the clamp to `[0, 1]` of
`initial_health * exp (-decay_rate * elapsed_days)`, where `elapsed_days`
is `max 0` of the elapsed time in days. -/
theorem calculate_health_matches_spec (t r now h0 : ℝ) :
    calculate_health t r now h0 = health_spec t r now h0 := by
  unfold calculate_health health_spec
  rw [max_comm ((now - t) / 86400) 0]
  exact clamp_comm _

/-- C2: `calculate_health` is total on all numeric inputs and its result
always lies in `[0, 1]`; when `decay_rate ≤ 0` the result stays at or above
`initial_health` capped at 1. -/
theorem calculate_health_safe (t r now h0 : ℝ) :
    0 ≤ calculate_health t r now h0 ∧ calculate_health t r now h0 ≤ 1 ∧
      (r ≤ 0 → min h0 1 ≤ calculate_health t r now h0) := by
  unfold calculate_health
  dsimp only
  refine ⟨le_max_left 0 _, max_le zero_le_one (min_le_left 1 _), fun hr => ?_⟩
  rcases le_total h0 0 with hh | hh
  · exact le_trans (min_le_left h0 1) (le_trans hh (le_max_left 0 _))
  · have hd : (0 : ℝ) ≤ max ((now - t) / 86400) 0 := le_max_right _ _
    have hx : (0 : ℝ) ≤ -r * max ((now - t) / 86400) 0 :=
      mul_nonneg (neg_nonneg.mpr hr) hd
    have hexp : (1 : ℝ) ≤ Real.exp (-r * max ((now - t) / 86400) 0) :=
      Real.one_le_exp hx
    have hmul : h0 ≤ h0 * Real.exp (-r * max ((now - t) / 86400) 0) :=
      le_mul_of_one_le_right hh hexp
    calc min h0 1 = min 1 h0 := min_comm h0 1
    _ ≤ min 1 (h0 * Real.exp (-r * max ((now - t) / 86400) 0)) :=
        min_le_min le_rfl hmul
    _ ≤ max 0 (min 1 (h0 * Real.exp (-r * max ((now - t) / 86400) 0))) :=
        le_max_right 0 _

/-- Witness for C2 at a concrete input with `decay_rate = -1 ≤ 0`. -/
theorem calculate_health_safe_witness :
    0 ≤ calculate_health 0 (-1) 86400 1 ∧ calculate_health 0 (-1) 86400 1 ≤ 1 ∧
      min 1 1 ≤ calculate_health 0 (-1) 86400 1 :=
  ⟨(calculate_health_safe 0 (-1) 86400 1).1,
   (calculate_health_safe 0 (-1) 86400 1).2.1,
   (calculate_health_safe 0 (-1) 86400 1).2.2 (by norm_num)⟩

/-- C5: when `last_interaction_at` is at or after `now` and `decay_rate > 0`,
elapsed time is floored to 0 and `calculate_health` returns exactly
`initial_health` (taken in its documented domain `[0, 1]`). -/
theorem calculate_health_clock_skew (t r now h0 : ℝ) (hskew : now ≤ t)
    (_hr : 0 < r) (h0l : 0 ≤ h0) (h0u : h0 ≤ 1) :
    calculate_health t r now h0 = h0 := by
  unfold calculate_health
  dsimp only
  have hdiv : (now - t) / 86400 ≤ 0 :=
    div_nonpos_iff.mpr (Or.inr ⟨sub_nonpos.mpr hskew, by norm_num⟩)
  rw [max_eq_right hdiv, mul_zero, Real.exp_zero, mul_one,
    min_eq_right h0u, max_eq_right h0l]

/-- Witness for C5: a last interaction one day in the future of `now`. -/
theorem calculate_health_clock_skew_witness :
    (0 : ℝ) ≤ 86400 ∧ (0 : ℝ) < 1 ∧ (0 : ℝ) ≤ 1 ∧ (1 : ℝ) ≤ 1 ∧
      calculate_health 86400 1 0 1 = 1 :=
  ⟨by norm_num, by norm_num, by norm_num, le_rfl,
   calculate_health_clock_skew 86400 1 0 1 (by norm_num) (by norm_num)
     (by norm_num) le_rfl⟩

/-- C6: for fixed `decay_rate > 0` and fixed `initial_health`, the health
is non-increasing as elapsed time grows. -/
theorem calculate_health_monotone (t r h0 n1 n2 : ℝ) (hr : 0 < r)
    (h12 : n1 ≤ n2) :
    calculate_health t r n2 h0 ≤ calculate_health t r n1 h0 := by
  unfold calculate_health
  dsimp only
  have hd : max ((n1 - t) / 86400) 0 ≤ max ((n2 - t) / 86400) 0 := by
    gcongr
  have hxe : -r * max ((n2 - t) / 86400) 0 ≤ -r * max ((n1 - t) / 86400) 0 := by
    nlinarith
  have hexp : Real.exp (-r * max ((n2 - t) / 86400) 0) ≤
      Real.exp (-r * max ((n1 - t) / 86400) 0) := Real.exp_le_exp.mpr hxe
  rcases le_total 0 h0 with hh | hh
  · exact clamp_mono (mul_le_mul_of_nonneg_left hexp hh)
  · have hm1 : h0 * Real.exp (-r * max ((n2 - t) / 86400) 0) ≤ 0 :=
      mul_nonpos_of_nonpos_of_nonneg hh (Real.exp_pos _).le
    have hm2 : h0 * Real.exp (-r * max ((n1 - t) / 86400) 0) ≤ 0 :=
      mul_nonpos_of_nonpos_of_nonneg hh (Real.exp_pos _).le
    rw [min_eq_right (hm1.trans zero_le_one), max_eq_left hm1,
      min_eq_right (hm2.trans zero_le_one), max_eq_left hm2]

/-- Witness for C6 at one elapsed day versus zero elapsed days. -/
theorem calculate_health_monotone_witness :
    (0 : ℝ) < 1 ∧ (0 : ℝ) ≤ 86400 ∧
      calculate_health 0 1 86400 1 ≤ calculate_health 0 1 0 1 :=
  ⟨by norm_num, by norm_num,
   calculate_health_monotone 0 1 1 0 86400 (by norm_num) (by norm_num)⟩

/-- C8: feeding any health value back into `days_until_threshold` as its own
threshold yields "absent": exact equality counts as already at the
threshold. -/
theorem round_trip_at_threshold (t r d : ℝ) :
    days_until_threshold (calculate_health t r (t + d) 1) r
      (calculate_health t r (t + d) 1) = Except.ok none := by
  unfold days_until_threshold
  rw [if_pos le_rfl]

/-- C3: `classify_status` buckets high-to-low with inclusive lower bounds
(`thriving` at or above `threshold_healthy`, then `cooling`, then
`at_risk`, else `dormant`), and under the default thresholds the boundary
scores 0.7 and 0.4 land in the higher bucket. -/
theorem classify_status_buckets :
    (∀ (s : Settings) (x : ℝ),
      (s.threshold_healthy ≤ x → classify_status s x = "thriving") ∧
      (x < s.threshold_healthy → s.threshold_cooling ≤ x →
        classify_status s x = "cooling") ∧
      (x < s.threshold_healthy → x < s.threshold_cooling →
        s.threshold_dormant ≤ x → classify_status s x = "at_risk") ∧
      (x < s.threshold_healthy → x < s.threshold_cooling →
        x < s.threshold_dormant → classify_status s x = "dormant")) ∧
    classify_status get_settings 0.7 = "thriving" ∧
    classify_status get_settings 0.4 = "cooling" := by
  refine ⟨fun s x => ⟨fun h1 => ?_, fun h1 h2 => ?_, fun h1 h2 h3 => ?_,
    fun h1 h2 h3 => ?_⟩, ?_, ?_⟩ <;>
    simp only [classify_status, ge_iff_le, get_settings] <;>
    first
      | rw [if_pos h1]
      | rw [if_neg (not_le.mpr h1), if_pos h2]
      | rw [if_neg (not_le.mpr h1), if_neg (not_le.mpr h2), if_pos h3]
      | rw [if_neg (not_le.mpr h1), if_neg (not_le.mpr h2),
          if_neg (not_le.mpr h3)]
      | norm_num

/-- Witness for C3: 0.85 is thriving, and the two boundary values. -/
theorem classify_status_buckets_witness :
    ((get_settings).threshold_healthy ≤ 0.85 ∧
      classify_status get_settings 0.85 = "thriving") ∧
    classify_status get_settings 0.7 = "thriving" ∧
    classify_status get_settings 0.4 = "cooling" :=
  ⟨⟨by norm_num [get_settings],
    (classify_status_buckets.1 get_settings 0.85).1
      (by norm_num [get_settings])⟩,
   classify_status_buckets.2.1, classify_status_buckets.2.2⟩

/-- C10: `classify_status` is total over all real inputs: any score below
the dormant threshold (all negative scores included) is `dormant`, any
score at or above the healthy threshold (scores above 1 included) is
`thriving`, and the result is always one of the four status strings. -/
theorem classify_status_total (x : ℝ) :
    (x < (get_settings).threshold_dormant →
      classify_status get_settings x = "dormant") ∧
    ((get_settings).threshold_healthy ≤ x →
      classify_status get_settings x = "thriving") ∧
    (∀ s : Settings, classify_status s x = "thriving" ∨
      classify_status s x = "cooling" ∨ classify_status s x = "at_risk" ∨
      classify_status s x = "dormant") := by
  refine ⟨fun h => ?_, fun h => ?_, fun s => ?_⟩
  · have h2 : x < (get_settings).threshold_cooling := by
      simp only [get_settings] at h ⊢; linarith
    have h1 : x < (get_settings).threshold_healthy := by
      simp only [get_settings] at h ⊢; linarith
    simp only [classify_status, ge_iff_le]
    rw [if_neg (not_le.mpr h1), if_neg (not_le.mpr h2), if_neg (not_le.mpr h)]
  · simp only [classify_status, ge_iff_le]
    rw [if_pos h]
  · simp only [classify_status, ge_iff_le]
    split_ifs <;> tauto

/-- Witness for C10: a negative score is dormant and a score above 1 is
thriving. -/
theorem classify_status_total_witness :
    ((-5 : ℝ) < (get_settings).threshold_dormant ∧
      classify_status get_settings (-5) = "dormant") ∧
    ((get_settings).threshold_healthy ≤ 2 ∧
      classify_status get_settings 2 = "thriving") :=
  ⟨⟨by norm_num [get_settings],
    (classify_status_total (-5)).1 (by norm_num [get_settings])⟩,
   ⟨by norm_num [get_settings],
    (classify_status_total 2).2.1 (by norm_num [get_settings])⟩⟩

/-- C7: the four known tier names map to their configured constants
(defaults 0.0077, 0.0231, 0.0495, 0.0116), and every other tier name falls
back to the configured fern rate. -/
theorem get_default_decay_rate_spec :
    get_default_decay_rate get_settings "succulent" = 0.0077 ∧
    get_default_decay_rate get_settings "fern" = 0.0231 ∧
    get_default_decay_rate get_settings "orchid" = 0.0495 ∧
    get_default_decay_rate get_settings "bonsai" = 0.0116 ∧
    ∀ (s : Settings) (tier : String), tier ≠ "succulent" → tier ≠ "fern" →
      tier ≠ "orchid" → tier ≠ "bonsai" →
      get_default_decay_rate s tier = s.decay_rate_fern := by
  refine ⟨rfl, rfl, rfl, rfl, fun s tier h1 h2 h3 h4 => ?_⟩
  simp only [get_default_decay_rate]
  rw [if_neg h1, if_neg h2, if_neg h3, if_neg h4]

/-- Witness for C7: an unknown tier name falls back to the fern rate. -/
theorem get_default_decay_rate_spec_witness :
    ("unknown_tier" ≠ "succulent" ∧ "unknown_tier" ≠ "fern" ∧
      "unknown_tier" ≠ "orchid" ∧ "unknown_tier" ≠ "bonsai") ∧
    get_default_decay_rate get_settings "unknown_tier" =
      (get_settings).decay_rate_fern :=
  ⟨⟨by decide, by decide, by decide, by decide⟩,
   get_default_decay_rate_spec.2.2.2.2 get_settings "unknown_tier"
     (by decide) (by decide) (by decide) (by decide)⟩

/-- Rounding to one decimal place preserves non-negativity. -/
lemma roundTo1_nonneg {x : ℝ} (hx : 0 ≤ x) : 0 ≤ roundTo1 x := by
  unfold roundTo1
  have h10 : (0 : ℤ) ≤ round (10 * x) := by
    rw [round_eq]
    exact Int.floor_nonneg.mpr (by linarith)
  have : (0 : ℝ) ≤ ((round (10 * x) : ℤ) : ℝ) := Int.cast_nonneg.mpr h10
  linarith

/-- C4 (amended): for every positive threshold, `days_until_threshold`
returns "absent" exactly when `current_health ≤ threshold` or
`decay_rate ≤ 0`, and otherwise returns the day count
`-ln (threshold / current_health) / decay_rate` rounded to one decimal
place, which is non-negative. -/
theorem days_until_threshold_spec (ch r th : ℝ) (hth : 0 < th) :
    (days_until_threshold ch r th = Except.ok none ↔ ch ≤ th ∨ r ≤ 0) ∧
    (th < ch → 0 < r →
      days_until_threshold ch r th =
        Except.ok (some (roundTo1 (-Real.log (th / ch) / r))) ∧
      0 ≤ roundTo1 (-Real.log (th / ch) / r)) := by
  unfold days_until_threshold
  constructor
  · by_cases h1 : ch ≤ th
    · rw [if_pos h1]; simp [h1]
    · rw [if_neg h1]
      by_cases h2 : r ≤ 0
      · rw [if_pos h2]; simp [h2]
      · rw [if_neg h2]
        have hch : 0 < ch := hth.trans (not_le.mp h1)
        have hratio : 0 < th / ch := div_pos hth hch
        rw [if_neg (not_le.mpr hratio)]
        simp [h1, h2]
  · intro hlt hr
    have hch : 0 < ch := hth.trans hlt
    have hratio : 0 < th / ch := div_pos hth hch
    have hlt1 : th / ch < 1 := (div_lt_one hch).mpr hlt
    have hlog : Real.log (th / ch) < 0 := Real.log_neg hratio hlt1
    have hpos : 0 < -Real.log (th / ch) / r := div_pos (by linarith) hr
    refine ⟨?_, roundTo1_nonneg hpos.le⟩
    rw [if_neg (not_le.mpr hlt), if_neg (not_le.mpr hr),
      if_neg (not_le.mpr hratio)]

/-- Witness for C4 (amended) at `current_health = 1`, `decay_rate = 1`,
`threshold = 1/2`. -/
theorem days_until_threshold_spec_witness :
    (0 : ℝ) < 1 / 2 ∧
    ((days_until_threshold 1 1 (1 / 2) = Except.ok none ↔
        (1 : ℝ) ≤ 1 / 2 ∨ (1 : ℝ) ≤ 0) ∧
      ((1 : ℝ) / 2 < 1 → (0 : ℝ) < 1 →
        days_until_threshold 1 1 (1 / 2) =
          Except.ok (some (roundTo1 (-Real.log (1 / 2 / 1) / 1))) ∧
        0 ≤ roundTo1 (-Real.log (1 / 2 / 1) / 1))) :=
  ⟨by norm_num, days_until_threshold_spec 1 1 (1 / 2) (by norm_num)⟩

/-- C4 is false as stated for non-positive thresholds: at
`current_health = -0.1`, `decay_rate = 1`, `threshold = -0.2` the function
does not return "absent" (since `-0.1 > -0.2` and `1 > 0`) yet the day
count it returns is the negative value `-0.7`, contradicting the claimed
non-negativity. -/
theorem days_until_threshold_negative_output :
    days_until_threshold (-0.1) 1 (-0.2) = Except.ok (some (-7 / 10)) ∧
      (-7 / 10 : ℝ) < 0 := by
  constructor
  · unfold days_until_threshold
    rw [if_neg (by norm_num), if_neg (by norm_num)]
    have hratio : (-0.2 : ℝ) / (-0.1) = 2 := by norm_num
    rw [hratio]
    rw [if_neg (by norm_num)]
    have hlog2l : (0.6931471803 : ℝ) < Real.log 2 := Real.log_two_gt_d9
    have hlog2u : Real.log 2 < 0.6931471808 := Real.log_two_lt_d9
    have hround : round (10 * (-Real.log 2 / 1)) = (-7 : ℤ) := by
      rw [round_eq, Int.floor_eq_iff]
      constructor
      · push_cast; linarith
      · push_cast; linarith
    unfold roundTo1
    rw [hround]
    norm_num
  · norm_num

/-- C9 (amended): a naive `last_interaction_at` is treated as already being
in UTC — the computed health equals the health computed from the
timezone-aware UTC timestamp with the same wall-clock value, whenever `now`
is timezone-aware. -/
theorem calculate_health_dt_naive_last_utc (lw r nw o h0 : ℝ) :
    calculate_health_dt ⟨lw, none⟩ r ⟨nw, some o⟩ h0 =
      calculate_health_dt ⟨lw, some 0⟩ r ⟨nw, some o⟩ h0 := rfl

/-- C9 is false as stated for a naive `now`: with an aware (UTC)
`last_interaction_at` and a naive `now`, the subtraction raises
`TypeError`, while the corresponding aware-UTC `now` yields a health
value — a naive `now` is not treated as UTC. -/
theorem calculate_health_dt_naive_now_errors :
    calculate_health_dt ⟨0, some 0⟩ 1 ⟨86400, none⟩ 1 =
      Except.error "TypeError" ∧
    calculate_health_dt ⟨0, some 0⟩ 1 ⟨86400, some 0⟩ 1 =
      Except.ok (calculate_health 0 1 86400 1) := by
  constructor
  · rfl
  · show Except.ok (calculate_health 0 1 ((86400 - 0) - (0 - 0)) 1) = _
    norm_num

end RelationshipGarden
